import Mathlib

/-!
Verification development for the resource sampler in
`scripts/utils/moitor.py` (class `SystemMonitor`).

The Python code is shallowly embedded: every interaction with the
operating system (psutil reads, the wall clock, the filesystem, external
interruptions) is an input supplied by an environment trace, and the
Python control flow (the `while` loop, the `try/except/finally`, the
`return` inside `finally`) is translated into total Lean functions over
that trace.  Timestamps are modelled as the ISO-format strings the code
actually stores (`datetime.now().isoformat()`), ordered lexicographically,
which for this fixed-width format agrees with chronological order.
-/

namespace Monitoring

/-- One fully populated measurement, mirroring the dict built by
`SystemMonitor.collect_metrics` (moitor.py lines 24-33).  `cpu_freq` is
optional: `psutil.cpu_freq()` may expose no `current` field, in which case
the code stores `None`. -/
structure Sample where
  timestamp : String
  cpu_percent : ℚ
  memory_rss : ℕ
  memory_vms : ℕ
  io_read_bytes : ℕ
  io_write_bytes : ℕ
  num_threads : ℕ
  cpu_freq : Option ℚ
deriving DecidableEq, Repr

/-- Environment outcome of the psutil reads performed by one call to
`collect_metrics`: either all reads succeed and yield a sample, or one of
them raises `psutil.NoSuchProcess` / `psutil.AccessDenied`, or some other
unexpected exception (tagged by a number) is raised. -/
inductive CollectEnv where
  | readings (s : Sample)
  | noSuchProcess
  | accessDenied
  | otherError (e : ℕ)
deriving DecidableEq, Repr

/-- `SystemMonitor.collect_metrics` (moitor.py lines 18-35): the body is
wrapped in `try ... except (psutil.NoSuchProcess, psutil.AccessDenied):
return None`, so those two exceptions become the `None` signal while any
other exception escapes (modelled as `Except.error`). -/
def collect_metrics : CollectEnv → Except ℕ (Option Sample)
  | .readings s => .ok (some s)
  | .noSuchProcess => .ok none
  | .accessDenied => .ok none
  | .otherError e => .error e

/-- Environment event for one iteration of the `while` loop in
`SystemMonitor.monitor` (moitor.py lines 42-46).  The loop first calls
`self.process.is_running()`; if true it calls `collect_metrics`, appends a
non-`None` result, and sleeps.  A `KeyboardInterrupt`-style external
interruption can arrive at the liveness check, during collection (before
the append) or during the sleep (after the append). -/
inductive IterEvent where
  | ended
  | nspAtLiveness
  | interruptAtLiveness
  | interruptDuringCollect
  | run (c : CollectEnv) (sleepInterrupted : Bool)
deriving DecidableEq, Repr

/-- How the `try` block of `SystemMonitor.monitor` finished. -/
inductive LoopOutcome where
  | finished
  | caughtNSP
  | interrupted
  | unexpected (e : ℕ)
  | starved
deriving DecidableEq, Repr

/-- The `while self.process.is_running():` loop of moitor.py lines 42-46,
accumulating `metrics`.  `starved` marks a trace that ran out of events
while the loop was still running; it corresponds to no finished execution
and is excluded in the theorems. -/
def loopGo : List IterEvent → List Sample → List Sample × LoopOutcome
  | [], acc => (acc, .starved)
  | ev :: rest, acc =>
    match ev with
    | .ended => (acc, .finished)
    | .nspAtLiveness => (acc, .caughtNSP)
    | .interruptAtLiveness => (acc, .interrupted)
    | .interruptDuringCollect => (acc, .interrupted)
    | .run c sleepInterrupted =>
      match collect_metrics c with
      | .error e => (acc, .unexpected e)
      | .ok r =>
        let acc' := acc ++ r.toList
        if sleepInterrupted then (acc', .interrupted) else loopGo rest acc'

/-- Decimal digit characters of a natural number, most significant first,
as Python's `str`/f-string formatting produces them. -/
def decChars (n : ℕ) : List Char :=
  ((Nat.digits 10 n).map Nat.digitChar).reverse

/-- Python decimal rendering of a natural number (`f"{n}"`). -/
def natDec (n : ℕ) : String :=
  if n = 0 then "0" else ⟨decChars n⟩

/-- The artifact file name of moitor.py line 38:
`f"monitor_{self.pid}_{int(time.time())}.json"`, where `tok` is the whole
second read from `time.time()` when `monitor` is entered. -/
def outputFileName (pid tok : ℕ) : String :=
  "monitor_" ++ natDec pid ++ "_" ++ natDec tok ++ ".json"

/-- A filesystem path as a list of components (`pathlib.Path` parts). -/
abbrev PathParts := List String

/-- The finalized session document written by the `finally` block
(moitor.py lines 52-57). -/
structure Artifact where
  pid : ℕ
  start_time : String
  end_time : String
  metrics : List Sample
deriving DecidableEq, Repr

/-- What `monitor` hands back to its caller: the returned path, or a
propagating exception (only the final write can still raise, since the
`return` inside `finally` discards any in-flight exception). -/
inductive ReturnValue where
  | normalReturn (path : PathParts)
  | raisedWriteError
deriving DecidableEq, Repr

/-- Observable result of one call to `SystemMonitor.monitor`: the list of
file writes it performed and its return behaviour. -/
structure MonitorResult where
  writes : List (PathParts × Artifact)
  ret : ReturnValue
deriving DecidableEq, Repr

/-- The sampler object after construction: `self.pid`, `self.output_dir`
and `self.start_time` (recorded by `__init__`, moitor.py line 16). -/
structure SystemMonitor where
  pid : ℕ
  output_dir : PathParts
  start_time : String
deriving DecidableEq, Repr

/-- `SystemMonitor.monitor` (moitor.py lines 37-59).  `tok` is
`int(time.time())` at entry, `evts` the per-iteration environment trace,
`endTime` the `datetime.now().isoformat()` read inside `finally`, and
`writeOk` whether the final `json.dump` succeeds.  Python semantics:
`except psutil.NoSuchProcess: pass` absorbs that exception, and the
`return output_file` inside `finally` discards any exception still in
flight, so whenever the write succeeds the call returns the path
normally; if the write raises, that exception propagates.  `none` is
returned only for starved traces (the loop has not finished). -/
def SystemMonitor.monitor (m : SystemMonitor) (tok : ℕ) (evts : List IterEvent)
    (endTime : String) (writeOk : Bool) : Option MonitorResult :=
  let output_file := m.output_dir ++ [outputFileName m.pid tok]
  match loopGo evts [] with
  | (_, .starved) => none
  | (metrics, _) =>
    if writeOk then
      some { writes := [(output_file, ⟨m.pid, m.start_time, endTime, metrics⟩)],
             ret := .normalReturn output_file }
    else
      some { writes := [], ret := .raisedWriteError }

/-- Specification-side description of the samples a trace contributes:
the sample of a successful collection. -/
def sampleOf : IterEvent → Option Sample
  | .run (.readings s) _ => some s
  | _ => none

/-- Specification-side: does this event end the sampling loop? -/
def stops : IterEvent → Bool
  | .ended => true
  | .nspAtLiveness => true
  | .interruptAtLiveness => true
  | .interruptDuringCollect => true
  | .run (.otherError _) _ => true
  | .run _ sleepInterrupted => sleepInterrupted

/-- The trace up to and including its first stopping event. -/
def upToStop : List IterEvent → List IterEvent
  | [] => []
  | ev :: rest => if stops ev then [ev] else ev :: upToStop rest

/-- Specification-side: the samples accumulated before the loop exits,
in order. -/
def specSamples (evts : List IterEvent) : List Sample :=
  (upToStop evts).filterMap sampleOf

/-- JSON values, as produced by `json.dump` / consumed by `json.load`:
numbers, strings, null, arrays and objects (ordered key-value pairs, the
order Python preserves from the dict). -/
inductive Json where
  | null
  | num (q : ℚ)
  | str (s : String)
  | arr (items : List Json)
  | obj (fields : List (String × Json))

/-- JSON encoding of an optional number: Python `None` becomes `null`. -/
def optNumToJson : Option ℚ → Json
  | none => .null
  | some q => .num q

/-- JSON encoding of one sample, in the key order of the dict literal in
`collect_metrics` (moitor.py lines 24-33). -/
def sampleToJson (s : Sample) : Json :=
  .obj [("timestamp", .str s.timestamp),
        ("cpu_percent", .num s.cpu_percent),
        ("memory_rss", .num s.memory_rss),
        ("memory_vms", .num s.memory_vms),
        ("io_read_bytes", .num s.io_read_bytes),
        ("io_write_bytes", .num s.io_write_bytes),
        ("num_threads", .num s.num_threads),
        ("cpu_freq", optNumToJson s.cpu_freq)]

/-- JSON encoding of the session document, in the key order of the dict
passed to `json.dump` (moitor.py lines 52-57). -/
def artifactToJson (a : Artifact) : Json :=
  .obj [("pid", .num a.pid),
        ("start_time", .str a.start_time),
        ("end_time", .str a.end_time),
        ("metrics", .arr (a.metrics.map sampleToJson))]

/-- Read back a natural number from a JSON number. -/
def jsonToNat (q : ℚ) : Option ℕ :=
  if q.den = 1 ∧ 0 ≤ q.num then some q.num.toNat else none

/-- Read back an optional number: `null` is absent, a number is present;
anything else is malformed. -/
def jsonToOptNum : Json → Option (Option ℚ)
  | .null => some none
  | .num q => some (some q)
  | _ => none

/-- Parse one sample object back from the artifact. -/
def sampleFromJson : Json → Option Sample
  | .obj [("timestamp", .str t),
          ("cpu_percent", .num cp),
          ("memory_rss", .num mr),
          ("memory_vms", .num mv),
          ("io_read_bytes", .num ir),
          ("io_write_bytes", .num iw),
          ("num_threads", .num nt),
          ("cpu_freq", f)] => do
    let mr' ← jsonToNat mr
    let mv' ← jsonToNat mv
    let ir' ← jsonToNat ir
    let iw' ← jsonToNat iw
    let nt' ← jsonToNat nt
    let cf ← jsonToOptNum f
    pure ⟨t, cp, mr', mv', ir', iw', nt', cf⟩
  | _ => none

/-- Parse the list of sample objects in order. -/
def samplesFromJson : List Json → Option (List Sample)
  | [] => some []
  | j :: rest => do
    let s ← sampleFromJson j
    let ss ← samplesFromJson rest
    pure (s :: ss)

/-- Parse the whole session document back from the artifact. -/
def artifactFromJson : Json → Option Artifact
  | .obj [("pid", .num p),
          ("start_time", .str st),
          ("end_time", .str et),
          ("metrics", .arr items)] => do
    let p' ← jsonToNat p
    let ms ← samplesFromJson items
    pure ⟨p', st, et, ms⟩
  | _ => none

/-- The simple filesystem state the sampler touches: the set of existing
directories and the written files. -/
structure FS where
  dirs : List PathParts
  files : List (PathParts × Artifact)
deriving DecidableEq, Repr

/-- `self.output_dir.mkdir(parents=True, exist_ok=True)` (moitor.py line
14): creates the directory together with every missing ancestor. -/
def mkdirParents (fs : FS) (d : PathParts) : FS :=
  { fs with dirs := ((List.range d.length).map fun k => d.take (k + 1)) ++ fs.dirs }

/-- Construction failure: `psutil.Process(pid)` raised because the pid
does not resolve to a running, accessible process. -/
inductive AttachError where
  | noSuchProcess
deriving DecidableEq, Repr

/-- `SystemMonitor.__init__` (moitor.py lines 11-16): stores pid and
output directory, creates the directory (with parents), then attaches via
`psutil.Process(pid)` — which raises when `resolves` is false — and
finally records `self.start_time = datetime.now()`. -/
def SystemMonitor.init (pid : ℕ) (output_dir : PathParts) (resolves : Bool)
    (now : String) (fs : FS) : FS × Except AttachError SystemMonitor :=
  let fs1 := mkdirParents fs output_dir
  if resolves then
    (fs1, .ok { pid := pid, output_dir := output_dir, start_time := now })
  else
    (fs1, .error .noSuchProcess)

/-- The wall-clock instants the session reads, in call order: the start
timestamp from `__init__`, each appended sample's timestamp, and the end
timestamp read in `finally`. -/
def traceTimes (start : String) (evts : List IterEvent) (endTime : String) :
    List String :=
  start :: ((specSamples evts).map Sample.timestamp ++ [endTime])

/-- The environment clock is non-decreasing across the session's
`datetime.now()` calls (wall clock without backward jumps). -/
def Chronological (start : String) (evts : List IterEvent) (endTime : String) :
    Prop :=
  List.Chain' (· ≤ ·) (traceTimes start evts endTime)

instance (start : String) (evts : List IterEvent) (endTime : String) :
    Decidable (Chronological start evts endTime) := by
  unfold Chronological
  infer_instance

/-! ## Helper lemmas -/

/-- The loop's accumulator refines the specification-side sample list:
whenever the loop finishes (is not starved), its accumulated metrics are
the initial accumulator followed by the samples of the trace up to its
first stopping event. -/
theorem loopGo_fst (evts : List IterEvent) (acc : List Sample)
    (h : (loopGo evts acc).2 ≠ LoopOutcome.starved) :
    (loopGo evts acc).1 = acc ++ specSamples evts := by
  induction evts generalizing acc with
  | nil => simp [loopGo] at h
  | cons ev rest ih =>
    cases ev with
    | ended => simp [loopGo, specSamples, upToStop, stops, sampleOf]
    | nspAtLiveness => simp [loopGo, specSamples, upToStop, stops, sampleOf]
    | interruptAtLiveness => simp [loopGo, specSamples, upToStop, stops, sampleOf]
    | interruptDuringCollect => simp [loopGo, specSamples, upToStop, stops, sampleOf]
    | run c sleepInterrupted =>
      cases c with
      | readings s =>
        cases sleepInterrupted with
        | true => simp [loopGo, collect_metrics, specSamples, upToStop, stops, sampleOf]
        | false =>
          have h' : (loopGo rest (acc ++ [s])).2 ≠ LoopOutcome.starved := by
            simpa [loopGo, collect_metrics] using h
          have hrec := ih (acc ++ [s]) h'
          simp [loopGo, collect_metrics, specSamples, upToStop, stops, sampleOf] at hrec ⊢
          simp [hrec]
      | noSuchProcess =>
        cases sleepInterrupted with
        | true => simp [loopGo, collect_metrics, specSamples, upToStop, stops, sampleOf]
        | false =>
          have h' : (loopGo rest acc).2 ≠ LoopOutcome.starved := by
            simpa [loopGo, collect_metrics] using h
          have hrec := ih acc h'
          simp [loopGo, collect_metrics, specSamples, upToStop, stops, sampleOf] at hrec ⊢
          simp [hrec]
      | accessDenied =>
        cases sleepInterrupted with
        | true => simp [loopGo, collect_metrics, specSamples, upToStop, stops, sampleOf]
        | false =>
          have h' : (loopGo rest acc).2 ≠ LoopOutcome.starved := by
            simpa [loopGo, collect_metrics] using h
          have hrec := ih acc h'
          simp [loopGo, collect_metrics, specSamples, upToStop, stops, sampleOf] at hrec ⊢
          simp [hrec]
      | otherError e =>
        simp [loopGo, collect_metrics, specSamples, upToStop, stops, sampleOf]

/-- Whenever `monitor` yields a result with a succeeding write, that
result is the single write of the finalized session document, holding the
specification-side samples, and the normal return of its path. -/
theorem monitor_some_shape (m : SystemMonitor) (tok : ℕ) (evts : List IterEvent)
    (endTime : String) (res : MonitorResult)
    (hres : m.monitor tok evts endTime true = some res) :
    res = { writes := [(m.output_dir ++ [outputFileName m.pid tok],
                        ⟨m.pid, m.start_time, endTime, specSamples evts⟩)],
            ret := .normalReturn (m.output_dir ++ [outputFileName m.pid tok]) } := by
  rcases hg : loopGo evts [] with ⟨ms, out⟩
  have hne : out ≠ LoopOutcome.starved →
      ms = specSamples evts := by
    intro hout
    have h2 := loopGo_fst evts [] (by rw [hg]; exact hout)
    rw [hg] at h2
    simpa using h2
  unfold SystemMonitor.monitor at hres
  rw [hg] at hres
  cases out with
  | starved => simp at hres
  | finished =>
    simp at hres
    rw [← hres, hne (by simp)]
  | caughtNSP =>
    simp at hres
    rw [← hres, hne (by simp)]
  | interrupted =>
    simp at hres
    rw [← hres, hne (by simp)]
  | unexpected e =>
    simp at hres
    rw [← hres, hne (by simp)]

/-- A non-backwards clock makes the session start at or before its end. -/
theorem chron_start_le_end {start endTime : String} {evts : List IterEvent}
    (h : Chronological start evts endTime) : start ≤ endTime := by
  have hp := List.chain'_iff_pairwise.mp h
  rcases List.pairwise_cons.mp hp with ⟨h1, _⟩
  exact h1 endTime (by simp)

/-- A non-backwards clock bounds every collected sample's timestamp by
the end timestamp. -/
theorem chron_sample_le_end {start endTime : String} {evts : List IterEvent}
    (h : Chronological start evts endTime) :
    ∀ s ∈ specSamples evts, s.timestamp ≤ endTime := by
  intro s hs
  have hp := List.chain'_iff_pairwise.mp h
  rcases List.pairwise_cons.mp hp with ⟨_, h2⟩
  rcases (List.pairwise_append.mp h2) with ⟨_, _, h3⟩
  exact h3 s.timestamp (List.mem_map.mpr ⟨s, hs, rfl⟩) endTime (by simp)

/-- A non-backwards clock makes the collected sample timestamps
non-decreasing in collection order. -/
theorem chron_samples_chain {start endTime : String} {evts : List IterEvent}
    (h : Chronological start evts endTime) :
    List.Chain' (fun a b : Sample => a.timestamp ≤ b.timestamp)
      (specSamples evts) := by
  have h1 : List.Chain' (· ≤ ·) ((specSamples evts).map Sample.timestamp) := by
    refine List.Chain'.sublist h ?_
    exact (List.sublist_append_left _ _).trans (List.sublist_cons_self _ _)
  exact (List.chain'_map _).mp h1

/-! ## Claims -/

/-- C1: for every finished run of the sampling loop — normal end because
the target process terminated, a `NoSuchProcess` raised mid-tick, or an
external interruption during a tick or sleep — the session artifact is
written exactly once and contains exactly the samples accumulated up to
that point (never fewer, never more, possibly zero). -/
theorem monitor_finalizes_once_with_exact_samples (m : SystemMonitor) (tok : ℕ)
    (evts : List IterEvent) (endTime : String) (res : MonitorResult)
    (hres : m.monitor tok evts endTime true = some res) :
    res.writes.length = 1 ∧ ∀ w ∈ res.writes, w.2.metrics = specSamples evts := by
  rw [monitor_some_shape m tok evts endTime res hres]
  refine ⟨rfl, ?_⟩
  intro w hw
  simp at hw
  rw [hw]

/-- Witness for C1: a session interrupted during the sleep after its
second tick is finalized once, with exactly the two samples collected. -/
theorem monitor_finalizes_once_with_exact_samples_witness :
    ({ writes := [(["monitor_0_0.json"],
                   ⟨0, "t0", "t9",
                    [⟨"t1", 0, 0, 0, 0, 0, 0, none⟩, ⟨"t2", 1, 2, 3, 4, 5, 6, some 7⟩]⟩)],
       ret := .normalReturn ["monitor_0_0.json"] } : MonitorResult).writes.length = 1 ∧
    (Artifact.mk 0 "t0" "t9"
        [⟨"t1", 0, 0, 0, 0, 0, 0, none⟩, ⟨"t2", 1, 2, 3, 4, 5, 6, some 7⟩]).metrics =
      specSamples [IterEvent.run (CollectEnv.readings ⟨"t1", 0, 0, 0, 0, 0, 0, none⟩) false,
                   IterEvent.run (CollectEnv.readings ⟨"t2", 1, 2, 3, 4, 5, 6, some 7⟩) true] := by
  have h := monitor_finalizes_once_with_exact_samples ⟨0, [], "t0"⟩ 0
      [IterEvent.run (CollectEnv.readings ⟨"t1", 0, 0, 0, 0, 0, 0, none⟩) false,
       IterEvent.run (CollectEnv.readings ⟨"t2", 1, 2, 3, 4, 5, 6, some 7⟩) true]
      "t9" _ rfl
  refine ⟨h.1, ?_⟩
  exact h.2 (["monitor_0_0.json"],
      ⟨0, "t0", "t9", [⟨"t1", 0, 0, 0, 0, 0, 0, none⟩, ⟨"t2", 1, 2, 3, 4, 5, 6, some 7⟩]⟩)
    (by simp [outputFileName, natDec])

/-- C2 (corrected), counterexample to the claim as stated: a tick whose
collection returns the process-gone signal does not terminate the loop —
if the liveness check still succeeds (e.g. `AccessDenied` on a live
process, or a zombie), a further tick runs and can still collect a
sample, which then appears in the artifact. -/
theorem gone_signal_does_not_stop_loop :
    loopGo [IterEvent.run CollectEnv.noSuchProcess false,
            IterEvent.run (CollectEnv.readings ⟨"t1", 0, 0, 0, 0, 0, 0, none⟩) false,
            IterEvent.ended] [] =
      ([⟨"t1", 0, 0, 0, 0, 0, 0, none⟩], LoopOutcome.finished) := rfl

/-- C2 (amended): when the target process has exited or become
inaccessible, `collect_metrics` returns the well-defined `None` signal
instead of raising; such a tick appends nothing, but the signal itself
does not terminate the loop — the loop simply proceeds to its next
liveness check, which is what actually ends the session. -/
theorem gone_signal_returned_not_raised_loop_continues :
    collect_metrics CollectEnv.noSuchProcess = .ok none ∧
    collect_metrics CollectEnv.accessDenied = .ok none ∧
    (∀ (rest : List IterEvent) (acc : List Sample),
      loopGo (IterEvent.run CollectEnv.noSuchProcess false :: rest) acc =
        loopGo rest acc) ∧
    (∀ (rest : List IterEvent) (acc : List Sample),
      loopGo (IterEvent.run CollectEnv.accessDenied false :: rest) acc =
        loopGo rest acc) := by
  refine ⟨rfl, rfl, ?_, ?_⟩ <;> intro rest acc <;> simp [loopGo, collect_metrics]

/-- C3 (code bug): an unexpected exception raised during a tick (here an
error tagged 7, e.g. a `ValueError`) is NOT propagated to the caller:
the `return output_file` inside the `finally` block discards the in-flight
exception, so `monitor` writes the artifact and returns its path as if
the session had ended normally. -/
theorem unexpected_tick_error_swallowed_by_final_return :
    (SystemMonitor.mk 0 ["logs"] "t0").monitor 0
        [IterEvent.run (CollectEnv.otherError 7) false] "t1" true =
      some { writes := [(["logs", "monitor_0_0.json"], ⟨0, "t0", "t1", []⟩)],
             ret := .normalReturn ["logs", "monitor_0_0.json"] } := rfl

/-- C4: constructing the sampler on a process identifier that does not
resolve raises the attach error (`psutil.NoSuchProcess` from
`psutil.Process(pid)`), and no artifact file is created in the output
directory (the filesystem's files are unchanged). -/
theorem attach_failure_raises_and_writes_no_artifact (pid : ℕ) (d : PathParts)
    (now : String) (fs : FS) :
    (SystemMonitor.init pid d false now fs).2 = .error .noSuchProcess ∧
    ((SystemMonitor.init pid d false now fs).1).files = fs.files := by
  constructor <;> simp [SystemMonitor.init, mkdirParents]

/-- C5: if the target process is already gone before the first tick (the
very first liveness check fails), the artifact is still written, with an
empty metrics sequence and the session's start and end timestamps, which
are valid (`end ≥ start`) whenever the clock did not go backwards. -/
theorem empty_session_artifact (m : SystemMonitor) (tok : ℕ) (endTime : String)
    (res : MonitorResult)
    (hres : m.monitor tok [IterEvent.ended] endTime true = some res)
    (hclock : m.start_time ≤ endTime) :
    res.writes.length = 1 ∧ ∀ w ∈ res.writes,
      w.2.metrics = [] ∧ w.2.start_time = m.start_time ∧
      w.2.end_time = endTime ∧ w.2.start_time ≤ w.2.end_time := by
  rw [monitor_some_shape m tok [IterEvent.ended] endTime res hres]
  refine ⟨rfl, ?_⟩
  intro w hw
  simp at hw
  rw [hw]
  exact ⟨rfl, rfl, rfl, hclock⟩

/-- Witness for C5: a concrete empty session is finalized with no samples
and ordered timestamps. -/
theorem empty_session_artifact_witness :
    ({ writes := [(["monitor_0_0.json"], ⟨0, "t0", "t0", []⟩)],
       ret := .normalReturn ["monitor_0_0.json"] } : MonitorResult).writes.length = 1 ∧
    (Artifact.mk 0 "t0" "t0" []).metrics = [] ∧
    (Artifact.mk 0 "t0" "t0" []).start_time = "t0" ∧
    (Artifact.mk 0 "t0" "t0" []).end_time = "t0" ∧
    (Artifact.mk 0 "t0" "t0" []).start_time ≤ (Artifact.mk 0 "t0" "t0" []).end_time := by
  have h := empty_session_artifact ⟨0, [], "t0"⟩ 0 "t0" _ rfl (le_refl _)
  refine ⟨h.1, ?_⟩
  exact h.2 (["monitor_0_0.json"], ⟨0, "t0", "t0", []⟩) (by simp [outputFileName, natDec])

/-- C6: for every finalized session artifact (written under a clock that
did not go backwards across the session's clock reads), the end timestamp
is at least the start timestamp, and if the metrics sequence is non-empty
the end timestamp is at least the timestamp of its last element. -/
theorem session_end_time_bounds (m : SystemMonitor) (tok : ℕ)
    (evts : List IterEvent) (endTime : String) (res : MonitorResult)
    (hres : m.monitor tok evts endTime true = some res)
    (hchron : Chronological m.start_time evts endTime) :
    ∀ w ∈ res.writes, w.2.start_time ≤ w.2.end_time ∧
      ∀ s ∈ w.2.metrics.getLast?, s.timestamp ≤ w.2.end_time := by
  rw [monitor_some_shape m tok evts endTime res hres]
  intro w hw
  simp at hw
  rw [hw]
  refine ⟨chron_start_le_end hchron, ?_⟩
  intro s hs
  have hmem : s ∈ specSamples evts :=
    List.mem_of_getLast?_eq_some (Option.mem_def.mp hs)
  exact chron_sample_le_end hchron s hmem

/-- Witness for C6: a one-sample session with constant clock has ordered
timestamps. -/
theorem session_end_time_bounds_witness :
    ("t" : String) ≤ "t" ∧
    (⟨"t", 0, 0, 0, 0, 0, 0, none⟩ : Sample).timestamp ≤ "t" := by
  have h := session_end_time_bounds ⟨0, [], "t"⟩ 0
      [IterEvent.run (CollectEnv.readings ⟨"t", 0, 0, 0, 0, 0, 0, none⟩) false,
       IterEvent.ended] "t" _ rfl
      (by simp [Chronological, traceTimes, specSamples, upToStop, stops, sampleOf])
  have h2 := h (["monitor_0_0.json"], ⟨0, "t", "t", [⟨"t", 0, 0, 0, 0, 0, 0, none⟩]⟩)
      (by simp [outputFileName, natDec, specSamples, upToStop, stops, sampleOf])
  exact ⟨h2.1, h2.2 ⟨"t", 0, 0, 0, 0, 0, 0, none⟩ (by simp)⟩

/-- C7: for every finalized session artifact (written under a clock that
did not go backwards across the session's clock reads), the metrics
sequence is non-decreasing in timestamp, in the order the loop appended
the samples. -/
theorem session_metrics_nondecreasing (m : SystemMonitor) (tok : ℕ)
    (evts : List IterEvent) (endTime : String) (res : MonitorResult)
    (hres : m.monitor tok evts endTime true = some res)
    (hchron : Chronological m.start_time evts endTime) :
    ∀ w ∈ res.writes,
      List.Chain' (fun a b : Sample => a.timestamp ≤ b.timestamp) w.2.metrics := by
  rw [monitor_some_shape m tok evts endTime res hres]
  intro w hw
  simp at hw
  rw [hw]
  exact chron_samples_chain hchron

/-- Witness for C7: a two-sample session with constant clock has a
non-decreasing metrics sequence. -/
theorem session_metrics_nondecreasing_witness :
    List.Chain' (fun a b : Sample => a.timestamp ≤ b.timestamp)
      [⟨"t", 0, 0, 0, 0, 0, 0, none⟩, ⟨"t", 1, 2, 3, 4, 5, 6, some 7⟩] := by
  have h := session_metrics_nondecreasing ⟨0, [], "t"⟩ 0
      [IterEvent.run (CollectEnv.readings ⟨"t", 0, 0, 0, 0, 0, 0, none⟩) false,
       IterEvent.run (CollectEnv.readings ⟨"t", 1, 2, 3, 4, 5, 6, some 7⟩) false,
       IterEvent.ended] "t" _ rfl
      (by simp [Chronological, traceTimes, specSamples, upToStop, stops, sampleOf])
  exact h (["monitor_0_0.json"],
      ⟨0, "t", "t", [⟨"t", 0, 0, 0, 0, 0, 0, none⟩, ⟨"t", 1, 2, 3, 4, 5, 6, some 7⟩]⟩)
    (by simp [outputFileName, natDec, specSamples, upToStop, stops, sampleOf])

/-- C10: construction creates the output directory, including every
missing parent, before attaching to the target process; so even when
construction fails because the identifier does not resolve, every level
of the output directory has been created and remains on disk. -/
theorem init_creates_output_dir_before_attach (pid : ℕ) (d : PathParts)
    (now : String) (fs : FS) (resolves : Bool) :
    (∀ k, k < d.length →
      d.take (k + 1) ∈ ((SystemMonitor.init pid d resolves now fs).1).dirs) ∧
    (resolves = false →
      (SystemMonitor.init pid d resolves now fs).2 = .error .noSuchProcess) := by
  constructor
  · intro k hk
    have hfs : ((SystemMonitor.init pid d resolves now fs).1).dirs =
        ((List.range d.length).map fun j => d.take (j + 1)) ++ fs.dirs := by
      cases resolves <;> simp [SystemMonitor.init, mkdirParents]
    rw [hfs]
    refine List.mem_append.mpr (Or.inl ?_)
    exact List.mem_map.mpr ⟨k, List.mem_range.mpr hk, rfl⟩
  · intro hr
    rw [hr]
    simp [SystemMonitor.init]

/-- Witness for C10: a failing construction on directory `a/b` still
creates both `a` and `a/b`. -/
theorem init_creates_output_dir_before_attach_witness :
    ["a", "b"].take 2 ∈ ((SystemMonitor.init 0 ["a", "b"] false "t" ⟨[], []⟩).1).dirs ∧
    (SystemMonitor.init 0 ["a", "b"] false "t" ⟨[], []⟩).2 = .error .noSuchProcess :=
  ⟨(init_creates_output_dir_before_attach 0 ["a", "b"] "t" ⟨[], []⟩ false).1 1 (by decide),
   (init_creates_output_dir_before_attach 0 ["a", "b"] "t" ⟨[], []⟩ false).2 rfl⟩

/-! ## Decimal rendering is injective (file-name distinctness) -/

/-- Decimal digit characters are distinct for distinct digits. -/
theorem digitChar_inj_below_ten :
    ∀ a < 10, ∀ b < 10, Nat.digitChar a = Nat.digitChar b → a = b := by decide

/-- Mapping `Nat.digitChar` over lists of digits below ten is injective. -/
theorem map_digitChar_inj : ∀ (l1 l2 : List ℕ), (∀ a ∈ l1, a < 10) →
    (∀ a ∈ l2, a < 10) → l1.map Nat.digitChar = l2.map Nat.digitChar → l1 = l2
  | [], [], _, _, _ => rfl
  | [], _ :: _, _, _, h => by simp at h
  | _ :: _, [], _, _, h => by simp at h
  | a :: t1, b :: t2, h1, h2, h => by
    simp only [List.map_cons, List.cons.injEq] at h
    have hab : a = b :=
      digitChar_inj_below_ten a (h1 a (by simp)) b (h2 b (by simp)) h.1
    have ht : t1 = t2 :=
      map_digitChar_inj t1 t2 (fun x hx => h1 x (by simp [hx]))
        (fun x hx => h2 x (by simp [hx])) h.2
    rw [hab, ht]

/-- The decimal character lists of two naturals agree only when the
naturals agree. -/
theorem decChars_inj {m n : ℕ} (h : decChars m = decChars n) : m = n := by
  unfold decChars at h
  have h2 := List.reverse_injective h
  have h3 := map_digitChar_inj _ _
    (fun a ha => Nat.digits_lt_base (by norm_num) ha)
    (fun a ha => Nat.digits_lt_base (by norm_num) ha) h2
  have h4 := congrArg (Nat.ofDigits 10) h3
  simpa [Nat.ofDigits_digits] using h4

/-- A positive natural never renders to the single character `0`. -/
theorem decChars_ne_zero_chars {n : ℕ} (hn : n ≠ 0) : decChars n ≠ ['0'] := by
  intro h
  have h3 : (Nat.digits 10 n).map Nat.digitChar = ['0'] := by
    have := congrArg List.reverse h
    simpa [decChars] using this
  have h4 : Nat.digits 10 n = [0] := by
    refine map_digitChar_inj _ [0]
      (fun a ha => Nat.digits_lt_base (by norm_num) ha) (by decide) ?_
    simpa [Nat.digitChar] using h3
  have h5 := congrArg (Nat.ofDigits 10) h4
  rw [Nat.ofDigits_digits] at h5
  simp [Nat.ofDigits] at h5
  exact hn h5

/-- The Python decimal rendering of naturals is injective. -/
theorem natDec_inj {m n : ℕ} (h : natDec m = natDec n) : m = n := by
  unfold natDec at h
  by_cases hm : m = 0 <;> by_cases hn : n = 0
  · rw [hm, hn]
  · exfalso
    apply decChars_ne_zero_chars hn
    have := congrArg String.data h
    simpa [hm, hn, String.data] using this.symm
  · exfalso
    apply decChars_ne_zero_chars hm
    have := congrArg String.data h
    simpa [hm, hn, String.data] using this
  · have := congrArg String.data h
    simp [hm, hn, String.data] at this
    exact decChars_inj this

/-- For a fixed process identifier, the artifact file name determines the
whole-second token it was built from. -/
theorem outputFileName_tok_inj (pid : ℕ) {t1 t2 : ℕ}
    (h : outputFileName pid t1 = outputFileName pid t2) : t1 = t2 := by
  unfold outputFileName at h
  have hd := congrArg String.data h
  simp only [String.data_append, List.append_assoc] at hd
  have h1 := List.append_cancel_left hd
  have h2 := List.append_cancel_left h1
  have h3 := List.append_cancel_left h2
  have h4 := List.append_cancel_right h3
  exact natDec_inj (by apply congrArg String.mk h4)

/-- C8 (amended): the artifact path is `output_dir / monitor_{pid}_{tok}.json`
where `tok` is the whole second read from the clock when `monitor` is
entered (sampling start) — not the constructed session start timestamp —
so two sessions for the same process whose `monitor` calls begin at
different whole seconds get different artifact paths. -/
theorem artifact_paths_differ_for_different_entry_seconds (d : PathParts)
    (pid : ℕ) {t1 t2 : ℕ} (h : t1 ≠ t2) :
    d ++ [outputFileName pid t1] ≠ d ++ [outputFileName pid t2] := by
  intro hEq
  have h1 := List.append_cancel_left hEq
  simp only [List.cons.injEq, and_true] at h1
  exact h (outputFileName_tok_inj pid h1)

/-- Witness for C8 (amended): seconds 0 and 1 give different paths. -/
theorem artifact_paths_differ_witness :
    ["logs"] ++ [outputFileName 0 0] ≠ ["logs"] ++ [outputFileName 0 1] :=
  artifact_paths_differ_for_different_entry_seconds ["logs"] 0 (by decide)

/-- C8 (corrected), counterexample to the claim as stated: the numeric
token comes from the clock at `monitor()` entry, not from the recorded
session start, so two sessions of the same process whose recorded start
timestamps lie in different whole seconds can still produce the very same
artifact path (and hence silently overwrite) when their `monitor` calls
fall in the same whole second. -/
theorem same_artifact_path_despite_different_session_starts :
    ((SystemMonitor.mk 0 [] "2026-01-01T00:00:00.900000").monitor 0
        [IterEvent.ended] "e" true).map (fun r => r.writes.map Prod.fst) =
      ((SystemMonitor.mk 0 [] "2026-01-01T00:00:01.100000").monitor 0
        [IterEvent.ended] "e" true).map (fun r => r.writes.map Prod.fst) ∧
    ("2026-01-01T00:00:00.900000" : String) ≠ "2026-01-01T00:00:01.100000" :=
  ⟨rfl, by decide⟩

/-- Reading back the JSON number of a natural recovers that natural. -/
theorem jsonToNat_natCast (n : ℕ) : jsonToNat (n : ℚ) = some n := by
  simp [jsonToNat]

/-- One sample round-trips through its JSON object unchanged, with an
absent `cpu_freq` going through `null` and back to absent. -/
theorem sampleFromJson_toJson (s : Sample) :
    sampleFromJson (sampleToJson s) = some s := by
  rcases s with ⟨t, cp, mr, mv, ir, iw, nt, cf⟩
  cases cf <;>
    simp [sampleToJson, sampleFromJson, optNumToJson, jsonToOptNum, jsonToNat_natCast]

/-- A list of samples round-trips through its JSON array unchanged. -/
theorem samplesFromJson_toJson (l : List Sample) :
    samplesFromJson (l.map sampleToJson) = some l := by
  induction l with
  | nil => rfl
  | cons s rest ih => simp [samplesFromJson, sampleFromJson_toJson, ih]

/-- C9: serializing a finalized session to the JSON artifact and parsing
it back yields the session unchanged, field for field — pid, start and
end timestamps, and every sample's eight fields — with an absent optional
`cpu_freq` round-tripping as `null`/absent rather than a sentinel
value. -/
theorem artifact_json_roundtrip (a : Artifact) :
    artifactFromJson (artifactToJson a) = some a := by
  rcases a with ⟨p, st, et, ms⟩
  simp [artifactToJson, artifactFromJson, jsonToNat_natCast, samplesFromJson_toJson]

end Monitoring
